import Mathlib

/-!
Verification of the academic_analyzer frontend's client-side logic.

The repository is a TypeScript/React client.  The parts embedded here are:

* the library page's `filteredDocuments` / `sortedDocuments` pipeline
  (src/academic-analyzer-frontend/src/app/lbrary/page.tsx, lines 97-115);
* the API gateway client `apiService` (the `api.ts` module): request
  builders for `/ask`, `/feedback`, `/upload_pdf`, `/agents/researcher`;
* the ask page's `handleSubmit` / `handleFeedback` handlers;
* the upload page's `handleUpload` handler;
* the research page's `handleSearch` handler.

Modelling conventions:

* JavaScript strings are Lean `String`s; `toLowerCase` is modelled as a
  character-wise `Char.toLower`, `trim` as the executable `jsTrim`, and
  `String.prototype.includes` as the executable substring test `hasSub`.
* `Date.parse`/`getTime` is host-environment functionality, so the sort is
  parameterised by an arbitrary timestamp function `pd : String → Int`;
  likewise `localeCompare` is a parameter `lc : String → String → Int`
  (ECMA-402 requires it to behave as a consistent comparator, which the
  sortedness theorem takes as a hypothesis).
* `Array.prototype.sort(cmp)` is modelled as a comparison sort
  (`List.insertionSort`) driven by the relation `cmp a b ≤ 0`.
* JS numbers that only ever hold finite decimal values (complexity and
  relevance scores, ratings) are modelled as `ℚ` / `Int`.
* Each async event handler is embedded as a pure state-transition function
  taking the view state, any ambient inputs (e.g. the current clock for
  `Date.now()`), and the outcome of the awaited network call
  (`Except Unit α`: `.ok` for a 2xx response, `.error` for failure).
  Requests issued and toasts surfaced are accumulated in the state, so
  "issues no network request" is `requests` unchanged and "surfaces a
  notice" is a toast appended.
-/

/-- `leadsWith nd hay` is true iff the character list `nd` is an initial
segment of `hay`; auxiliary to the substring test. -/
def leadsWith : List Char → List Char → Bool
  | [], _ => true
  | _ :: _, [] => false
  | a :: as, b :: bs => a == b && leadsWith as bs

/-- Model of JS `String.prototype.includes` on character lists:
`hasSub hay nd` is true iff `nd` occurs contiguously inside `hay`. -/
def hasSub : List Char → List Char → Bool
  | [], nd => leadsWith nd []
  | h :: t, nd => leadsWith nd (h :: t) || hasSub t nd

/-- Model of JS `toLowerCase`: character-wise lowering of a string. -/
def jsToLower (s : String) : List Char := s.data.map Char.toLower

/-- Model of JS `String.prototype.trim`: drop leading and trailing
whitespace characters. -/
def jsTrim (s : String) : String :=
  String.mk
    (((s.data.dropWhile Char.isWhitespace).reverse.dropWhile
        Char.isWhitespace).reverse)

/-- The `Document` interface of the library page (lbrary/page.tsx).
`complexity_score` is a finite JS number, modelled as `ℚ`. -/
structure Document where
  document_id : String
  filename : String
  subject : String
  upload_date : String
  complexity_score : ℚ
  chunk_count : Nat
deriving DecidableEq, Repr

/-- `matchesSearch` from `filteredDocuments` (lbrary/page.tsx line 98):
lower-cased filename or subject includes the lower-cased search term. -/
def matchesSearch (searchTerm : String) (doc : Document) : Bool :=
  hasSub (jsToLower doc.filename) (jsToLower searchTerm) ||
    hasSub (jsToLower doc.subject) (jsToLower searchTerm)

/-- `matchesFilter` from `filteredDocuments` (lbrary/page.tsx line 100):
the sentinel "all" or exact subject equality. -/
def matchesFilter (filterBy : String) (doc : Document) : Bool :=
  filterBy == "all" || doc.subject == filterBy

/-- `filteredDocuments` (lbrary/page.tsx lines 97-102). -/
def filteredDocuments (searchTerm filterBy : String) (docs : List Document) :
    List Document :=
  docs.filter (fun doc => matchesSearch searchTerm doc && matchesFilter filterBy doc)

/-- The comparator passed to `.sort` in `sortedDocuments`
(lbrary/page.tsx lines 104-115), parameterised by the host's date parser
`pd` and locale comparison `lc`.  The `default` arm of the switch
returns 0. -/
def docCmp (pd : String → Int) (lc : String → String → Int)
    (sortBy : String) (a b : Document) : ℚ :=
  if sortBy = "upload_date" then ((pd b.upload_date : ℚ) - (pd a.upload_date : ℚ))
  else if sortBy = "filename" then (lc a.filename b.filename : ℚ)
  else if sortBy = "complexity" then b.complexity_score - a.complexity_score
  else 0

/-- `sortedDocuments` (lbrary/page.tsx line 104): a copy of the filtered
list sorted by the comparator; `sort(cmp)` is modelled as a comparison
sort over the relation `cmp a b ≤ 0`. -/
def sortedDocuments (pd : String → Int) (lc : String → String → Int)
    (sortBy : String) (docs : List Document) : List Document :=
  List.insertionSort (fun a b => docCmp pd lc sortBy a b ≤ 0) docs

/-- The library page's whole derived view: filter, then sort. -/
def sortFilter (pd : String → Int) (lc : String → String → Int)
    (searchTerm filterBy sortBy : String) (docs : List Document) : List Document :=
  sortedDocuments pd lc sortBy (filteredDocuments searchTerm filterBy docs)

/-- A concrete consistent comparator on strings, standing in for one
possible locale's `localeCompare` (used to instantiate theorems that are
generic in `lc`). -/
def localeCompareModel (s t : String) : Int :=
  if s < t then -1 else if t < s then 1 else 0

/-- A user-facing toast notification (the `sonner` `toast` calls). -/
inductive Toast
  | error (msg : String)
  | success (msg : String)
deriving DecidableEq, Repr

/-- A `Source` entry of an answer (api.ts `UserInteraction.sources`);
`relevance_score` is a finite JS number, modelled as `ℚ`. -/
structure Source where
  document : String
  chunk_id : String
  relevance_score : ℚ
  preview : String
deriving DecidableEq, Repr

/-- Body of the POST issued by `apiService.askQuestion` (api.ts lines
64-70). -/
structure AskRequest where
  path : String
  question : String
  document_id : String
  user_id : String
deriving DecidableEq, Repr

/-- `apiService.askQuestion(question, documentId, userId)`: builds the one
POST `/ask` request with the three body fields. -/
def askQuestion (question documentId userId : String) : AskRequest :=
  { path := "/ask", question := question, document_id := documentId,
    user_id := userId }

/-- `apiService.askQuestion` invoked without its `documentId` argument:
the JS default parameter supplies the sentinel "all". -/
def askQuestionDefaultDoc (question userId : String) : AskRequest :=
  askQuestion question "all" userId

/-- Body of the POST issued by `apiService.submitFeedback` (api.ts lines
100-106). -/
structure FeedbackRequest where
  path : String
  interaction_id : String
  rating : Int
  comments : String
deriving DecidableEq, Repr

/-- `apiService.submitFeedback(interactionId, rating, comments)`. -/
def submitFeedback (interactionId : String) (rating : Int) (comments : String) :
    FeedbackRequest :=
  { path := "/feedback", interaction_id := interactionId, rating := rating,
    comments := comments }

/-- `apiService.submitFeedback` invoked without its `comments` argument:
the JS default parameter supplies the empty string. -/
def submitFeedbackDefaultComments (interactionId : String) (rating : Int) :
    FeedbackRequest :=
  submitFeedback interactionId rating ""

/-- A request issued from the ask page (either gateway operation it
uses). -/
inductive ApiRequest
  | askReq (r : AskRequest)
  | feedbackReq (r : FeedbackRequest)
deriving DecidableEq, Repr

/-- The payload of a successful POST `/ask` response, as consumed by the
ask page (`data.answer`, `data.sources`, `data.tutor_explanation`,
`data.interaction_id`). -/
structure AskResponse where
  answer : String
  sources : Option (List Source)
  tutor_explanation : Option String
  interaction_id : Option String
deriving DecidableEq, Repr

/-- A chat message of the ask page (`Message` interface, part_003 lines
23-36).  `timestamp` is the `Date.now()` clock value. -/
structure Message where
  id : String
  kind : String
  content : String
  timestamp : Nat
  sources : Option (List Source)
  tutor_explanation : Option String
  interaction_id : Option String
deriving DecidableEq, Repr

/-- Local state of the ask page (part_003 lines 39-42), extended with the
toast and request logs of the modelling convention. -/
structure AskState where
  messages : List Message
  input : String
  loading : Bool
  selectedDocument : String
  toasts : List Toast
  requests : List ApiRequest
deriving DecidableEq, Repr

/-- The ask page's `handleSubmit` (part_003 lines 53-88) as one
state-transition: guard on empty-after-trim input or an in-flight
request; append the user message, clear the input, set loading, issue the
POST `/ask`; on success append the assistant message carrying the
response's fields, on failure surface an error toast; finally clear
loading.  `now` is `Date.now()`, `outcome` the awaited response. -/
def handleSubmit (st : AskState) (now : Nat)
    (outcome : Except Unit AskResponse) : AskState :=
  if jsTrim st.input == "" || st.loading then st
  else
    let userMessage : Message :=
      { id := toString now, kind := "user", content := st.input,
        timestamp := now, sources := none, tutor_explanation := none,
        interaction_id := none }
    let st1 : AskState :=
      { st with messages := st.messages ++ [userMessage], input := "",
                loading := true }
    let st2 : AskState :=
      { st1 with requests :=
          st1.requests ++
            [ApiRequest.askReq (askQuestion st.input st.selectedDocument "cli_user")] }
    match outcome with
    | Except.ok data =>
        let assistantMessage : Message :=
          { id := toString (now + 1), kind := "assistant",
            content := data.answer, timestamp := now,
            sources := data.sources,
            tutor_explanation := data.tutor_explanation,
            interaction_id := data.interaction_id }
        { st2 with messages := st2.messages ++ [assistantMessage],
                   loading := false }
    | Except.error _ =>
        { st2 with
            toasts := st2.toasts ++
              [Toast.error "Failed to get answer. Please try again."],
            loading := false }

/-- The ask page's `handleFeedback` (part_003 lines 90-97): issue the
POST `/feedback` (comments defaulted) and surface a success or error
toast; nothing else in the state is touched. -/
def handleFeedback (st : AskState) (interactionId : String) (rating : Int)
    (outcome : Except Unit Unit) : AskState :=
  let st1 : AskState :=
    { st with requests :=
        st.requests ++
          [ApiRequest.feedbackReq (submitFeedbackDefaultComments interactionId rating)] }
  match outcome with
  | Except.ok _ =>
      { st1 with toasts := st1.toasts ++ [Toast.success "Thank you for your feedback!"] }
  | Except.error _ =>
      { st1 with toasts := st1.toasts ++ [Toast.error "Failed to submit feedback."] }

/-- The JS ask page's submit button is disabled iff `!input.trim() ||
loading` (part_003 line 260). -/
def askSubmitDisabled (st : AskState) : Bool :=
  jsTrim st.input == "" || st.loading

/-- The JS ask page's text input is disabled iff `loading` (part_003 line
256). -/
def askInputDisabled (st : AskState) : Bool :=
  st.loading

/-- A selected file on the upload page; `handleFileChange` only admits
PDFs, and `handleUpload` only inspects presence, so the name is the sole
modelled attribute. -/
structure UploadFile where
  name : String
deriving DecidableEq, Repr

/-- The multipart form issued by `apiService.uploadPDF` (api.ts lines
50-61). -/
structure UploadRequest where
  path : String
  fileName : String
  subject : String
  user_id : String
deriving DecidableEq, Repr

/-- `apiService.uploadPDF(file, subject, userId)`: builds the one POST
`/upload_pdf` multipart request. -/
def uploadPDF (file : UploadFile) (subject userId : String) : UploadRequest :=
  { path := "/upload_pdf", fileName := file.name, subject := subject,
    user_id := userId }

/-- Payload of a successful POST `/upload_pdf` response as consumed by the
upload page (`document_id`, `chunks`, `complexity_score`). -/
structure UploadResponse where
  document_id : String
  chunks : Nat
  complexity_score : ℚ
deriving DecidableEq, Repr

/-- Local state of the upload page (part_004 lines 13-16), extended with
the toast and request logs of the modelling convention. -/
structure UploadState where
  file : Option UploadFile
  subject : String
  uploading : Bool
  uploadResult : Option UploadResponse
  toasts : List Toast
  requests : List UploadRequest
deriving DecidableEq, Repr

/-- The upload page's `handleUpload` (part_004 lines 29-49): guard
`!file || !subject.trim()` surfaces the validation toast and returns;
otherwise set uploading, issue the POST `/upload_pdf`; on success store
the result, surface a success toast and reset the form; on failure
surface an error toast; finally clear uploading. -/
def handleUpload (st : UploadState) (outcome : Except Unit UploadResponse) :
    UploadState :=
  match st.file with
  | none =>
      { st with toasts := st.toasts ++ [Toast.error "Please select a file and enter a subject."] }
  | some f =>
      if jsTrim st.subject == "" then
        { st with toasts := st.toasts ++ [Toast.error "Please select a file and enter a subject."] }
      else
        let st1 : UploadState :=
          { st with uploading := true,
                    requests := st.requests ++ [uploadPDF f st.subject "cli_user"] }
        match outcome with
        | Except.ok resp =>
            { st1 with uploadResult := some resp,
                       toasts := st1.toasts ++
                         [Toast.success "Upload successful! Your document has been processed and is ready for questions."],
                       file := none, subject := "", uploading := false }
        | Except.error _ =>
            { st1 with
                toasts := st1.toasts ++
                  [Toast.error "Upload failed. There was an error uploading your document. Please try again."],
                uploading := false }

/-- The JS upload page's button is disabled iff `!file || !subject ||
uploading` (part_004 line 109); note the untrimmed subject. -/
def uploadButtonDisabled (st : UploadState) : Bool :=
  st.file.isNone || st.subject == "" || st.uploading

/-- The request issued by `apiService.getResearchSuggestions` (api.ts
lines 93-97). -/
structure ResearchRequest where
  path : String
  topic : String
deriving DecidableEq, Repr

/-- `apiService.getResearchSuggestions(topic)`: builds the one POST
`/agents/researcher` request. -/
def getResearchSuggestions (topic : String) : ResearchRequest :=
  { path := "/agents/researcher", topic := topic }

/-- Local state of the research page (analytics/page.tsx lines 561-565),
extended with the toast and request logs of the modelling convention. -/
structure ResearchState where
  topic : String
  suggestions : String
  loading : Bool
  searchHistory : List String
  toasts : List Toast
  requests : List ResearchRequest
deriving DecidableEq, Repr

/-- The research page's `handleSearch` (analytics/page.tsx lines
581-600): guard on empty-after-trim topic; set loading and issue the POST
`/agents/researcher`; on success store the suggestions, prepend the topic
to the first nine history entries unless already present
(`[topic, ...prev.slice(0, 9)]` guarded by `includes`), and surface a
success toast; on failure surface an error toast; finally clear
loading. -/
def handleSearch (st : ResearchState) (outcome : Except Unit String) :
    ResearchState :=
  if jsTrim st.topic == "" then st
  else
    let st1 : ResearchState :=
      { st with loading := true,
                requests := st.requests ++ [getResearchSuggestions st.topic] }
    match outcome with
    | Except.ok sugg =>
        let st2 : ResearchState := { st1 with suggestions := sugg }
        let st3 : ResearchState :=
          if st2.searchHistory.contains st2.topic then st2
          else { st2 with searchHistory := st2.topic :: st2.searchHistory.take 9 }
        { st3 with toasts := st3.toasts ++ [Toast.success "Operation completed successfully."],
                   loading := false }
    | Except.error _ =>
        { st1 with toasts := st1.toasts ++ [Toast.error "Something went wrong."],
                   loading := false }

/-- The research page's initial state (`useState` initialisers, lines
561-565). -/
def initialResearchState : ResearchState :=
  { topic := "", suggestions := "", loading := false, searchHistory := [],
    toasts := [], requests := [] }

/-- A session on the research page: each step types a topic into the
input (`setTopic`) and runs `handleSearch`, the pair carrying the topic
and the network outcome. -/
def runSearches (steps : List (String × Except Unit String)) : ResearchState :=
  steps.foldl (fun st p => handleSearch { st with topic := p.1 } p.2)
    initialResearchState

lemma leadsWith_iff (nd hay : List Char) :
    leadsWith nd hay = true ↔ ∃ r, hay = nd ++ r := by
  induction nd generalizing hay with
  | nil => simp [leadsWith]
  | cons a as ih =>
    cases hay with
    | nil => simp [leadsWith]
    | cons b bs =>
      simp only [leadsWith, Bool.and_eq_true, beq_iff_eq, ih]
      constructor
      · rintro ⟨hab, r, hr⟩
        refine ⟨r, ?_⟩
        rw [hab, hr, List.cons_append]
      · rintro ⟨r, hr⟩
        rw [List.cons_append] at hr
        injection hr with h1 h2
        exact ⟨h1.symm, r, h2⟩

lemma hasSub_iff (hay nd : List Char) :
    hasSub hay nd = true ↔ ∃ l r, hay = l ++ nd ++ r := by
  induction hay with
  | nil =>
    simp only [hasSub, leadsWith_iff]
    constructor
    · rintro ⟨r, hr⟩
      obtain ⟨h1, h2⟩ := List.append_eq_nil.mp hr.symm
      exact ⟨[], r, by simp [h1, h2]⟩
    · rintro ⟨l, r, hr⟩
      obtain ⟨h1, h2⟩ := List.append_eq_nil.mp hr.symm
      obtain ⟨h3, h4⟩ := List.append_eq_nil.mp h1
      exact ⟨r, by simp [h2, h4]⟩
  | cons h t ih =>
    simp only [hasSub, Bool.or_eq_true, leadsWith_iff, ih]
    constructor
    · rintro (⟨r, hr⟩ | ⟨l, r, hr⟩)
      · exact ⟨[], r, by simp [hr]⟩
      · exact ⟨h :: l, r, by simp [hr]⟩
    · rintro ⟨l, r, hr⟩
      cases l with
      | nil => exact Or.inl ⟨r, by simpa using hr⟩
      | cons x xs =>
        rw [List.cons_append, List.cons_append] at hr
        injection hr with h1 h2
        exact Or.inr ⟨xs, r, by simpa using h2⟩

/-- C1: a Document passes the library filter iff its lower-cased filename
or subject contains the lower-cased search text as a substring, and the
filter value is the sentinel "all" or equals the subject exactly. -/
theorem library_filter_correct (docs : List Document) (s f : String)
    (d : Document) :
    d ∈ filteredDocuments s f docs ↔
      d ∈ docs ∧
        ((∃ l r, jsToLower d.filename = l ++ jsToLower s ++ r) ∨
          (∃ l r, jsToLower d.subject = l ++ jsToLower s ++ r)) ∧
        (f = "all" ∨ d.subject = f) := by
  simp [filteredDocuments, List.mem_filter, matchesSearch, matchesFilter,
    Bool.and_eq_true, Bool.or_eq_true, hasSub_iff, beq_iff_eq, and_assoc]

/-- C3: the library's filter-then-sort is a pure function — two calls on
identical arguments agree definitionally — and its output is a
permutation of exactly the filter-passing subset of the input list; the
input list itself is never mutated in this embedding. -/
theorem library_sortFilter_pure (pd : String → Int)
    (lc : String → String → Int) (s f k : String) (docs : List Document) :
    sortFilter pd lc s f k docs = sortFilter pd lc s f k docs ∧
      List.Perm (sortFilter pd lc s f k docs) (filteredDocuments s f docs) ∧
      filteredDocuments s f docs =
        docs.filter (fun d => matchesSearch s d && matchesFilter f d) :=
  ⟨rfl, List.perm_insertionSort _ _, rfl⟩

lemma sortedDocuments_pairwise (pd : String → Int) (lc : String → String → Int)
    (k : String)
    (hTot : ∀ a b, docCmp pd lc k a b ≤ 0 ∨ docCmp pd lc k b a ≤ 0)
    (hTrans : ∀ a b c, docCmp pd lc k a b ≤ 0 → docCmp pd lc k b c ≤ 0 →
      docCmp pd lc k a c ≤ 0)
    (docs : List Document) :
    (sortedDocuments pd lc k docs).Pairwise
      (fun a b => docCmp pd lc k a b ≤ 0) := by
  haveI : IsTotal Document (fun a b => docCmp pd lc k a b ≤ 0) := ⟨hTot⟩
  haveI : IsTrans Document (fun a b => docCmp pd lc k a b ≤ 0) :=
    ⟨fun a b c => hTrans a b c⟩
  exact List.sorted_insertionSort _ docs

lemma docCmp_upload_date (pd : String → Int) (lc : String → String → Int)
    (a b : Document) :
    docCmp pd lc "upload_date" a b ≤ 0 ↔ pd b.upload_date ≤ pd a.upload_date := by
  unfold docCmp
  rw [if_pos rfl, sub_nonpos, Int.cast_le]

lemma docCmp_filename (pd : String → Int) (lc : String → String → Int)
    (a b : Document) :
    docCmp pd lc "filename" a b ≤ 0 ↔ lc a.filename b.filename ≤ 0 := by
  have h1 : ("filename" : String) ≠ "upload_date" := by decide
  unfold docCmp
  rw [if_neg h1, if_pos rfl]
  exact_mod_cast Iff.rfl

lemma docCmp_complexity (pd : String → Int) (lc : String → String → Int)
    (a b : Document) :
    docCmp pd lc "complexity" a b ≤ 0 ↔
      b.complexity_score ≤ a.complexity_score := by
  have h1 : ("complexity" : String) ≠ "upload_date" := by decide
  have h2 : ("complexity" : String) ≠ "filename" := by decide
  unfold docCmp
  rw [if_neg h1, if_neg h2, if_pos rfl, sub_nonpos]

/-- C2: the library sort output is non-increasing in the parsed
upload-date timestamp under key "upload_date", ascending in the locale
comparison of filenames under key "filename" (for any locale comparison
that is a consistent comparator), and non-increasing in the complexity
score under key "complexity". -/
theorem library_sort_correct (pd : String → Int) (lc : String → String → Int)
    (hTot : ∀ s t, lc s t ≤ 0 ∨ lc t s ≤ 0)
    (hTrans : ∀ s t u, lc s t ≤ 0 → lc t u ≤ 0 → lc s u ≤ 0)
    (docs : List Document) :
    (sortedDocuments pd lc "upload_date" docs).Pairwise
      (fun a b => pd b.upload_date ≤ pd a.upload_date) ∧
    (sortedDocuments pd lc "filename" docs).Pairwise
      (fun a b => lc a.filename b.filename ≤ 0) ∧
    (sortedDocuments pd lc "complexity" docs).Pairwise
      (fun a b => b.complexity_score ≤ a.complexity_score) := by
  refine ⟨?_, ?_, ?_⟩
  · have h := sortedDocuments_pairwise pd lc "upload_date"
      (fun a b => by
        rw [docCmp_upload_date, docCmp_upload_date]
        exact (le_total (pd b.upload_date) (pd a.upload_date)))
      (fun a b c hab hbc => by
        rw [docCmp_upload_date] at hab hbc ⊢
        exact le_trans hbc hab) docs
    exact h.imp (fun hab => (docCmp_upload_date pd lc _ _).mp hab)
  · have h := sortedDocuments_pairwise pd lc "filename"
      (fun a b => by
        rw [docCmp_filename, docCmp_filename]
        exact hTot a.filename b.filename)
      (fun a b c hab hbc => by
        rw [docCmp_filename] at hab hbc ⊢
        exact hTrans _ _ _ hab hbc) docs
    exact h.imp (fun hab => (docCmp_filename pd lc _ _).mp hab)
  · have h := sortedDocuments_pairwise pd lc "complexity"
      (fun a b => by
        rw [docCmp_complexity, docCmp_complexity]
        exact (le_total b.complexity_score a.complexity_score))
      (fun a b c hab hbc => by
        rw [docCmp_complexity] at hab hbc ⊢
        exact le_trans hbc hab) docs
    exact h.imp (fun hab => (docCmp_complexity pd lc _ _).mp hab)

lemma localeCompareModel_le_iff (s t : String) :
    localeCompareModel s t ≤ 0 ↔ s ≤ t := by
  unfold localeCompareModel
  rcases lt_trichotomy s t with h | h | h
  · rw [if_pos h]
    simp [le_of_lt h]
  · subst h
    simp [lt_irrefl]
  · rw [if_neg h.not_lt, if_pos h]
    norm_num [not_le.mpr h]

lemma localeCompareModel_total (s t : String) :
    localeCompareModel s t ≤ 0 ∨ localeCompareModel t s ≤ 0 := by
  rw [localeCompareModel_le_iff, localeCompareModel_le_iff]
  exact le_total s t

lemma localeCompareModel_trans (s t u : String) :
    localeCompareModel s t ≤ 0 → localeCompareModel t u ≤ 0 →
      localeCompareModel s u ≤ 0 := by
  rw [localeCompareModel_le_iff, localeCompareModel_le_iff,
    localeCompareModel_le_iff]
  exact le_trans

/-- Witness for the sortedness theorem: a concrete date parser (string
length), the concrete comparator `localeCompareModel` with its
consistency hypotheses discharged, and a concrete two-document list. -/
theorem library_sort_correct_witness :
    (∀ s t, localeCompareModel s t ≤ 0 ∨ localeCompareModel t s ≤ 0) ∧
    (∀ s t u, localeCompareModel s t ≤ 0 → localeCompareModel t u ≤ 0 →
      localeCompareModel s u ≤ 0) ∧
    ((sortedDocuments (fun s => (s.length : Int)) localeCompareModel
        "upload_date"
        [⟨"doc_001", "b.pdf", "ML", "2024-01-15T10:30:00Z", 3/4, 45⟩,
         ⟨"doc_002", "a.pdf", "DL", "2024-01-10", 17/20, 38⟩]).Pairwise
        (fun a b => (b.upload_date.length : Int) ≤ (a.upload_date.length : Int)) ∧
      (sortedDocuments (fun s => (s.length : Int)) localeCompareModel
        "filename"
        [⟨"doc_001", "b.pdf", "ML", "2024-01-15T10:30:00Z", 3/4, 45⟩,
         ⟨"doc_002", "a.pdf", "DL", "2024-01-10", 17/20, 38⟩]).Pairwise
        (fun a b => localeCompareModel a.filename b.filename ≤ 0) ∧
      (sortedDocuments (fun s => (s.length : Int)) localeCompareModel
        "complexity"
        [⟨"doc_001", "b.pdf", "ML", "2024-01-15T10:30:00Z", 3/4, 45⟩,
         ⟨"doc_002", "a.pdf", "DL", "2024-01-10", 17/20, 38⟩]).Pairwise
        (fun a b => b.complexity_score ≤ a.complexity_score)) :=
  ⟨localeCompareModel_total, localeCompareModel_trans,
    library_sort_correct (fun s => (s.length : Int)) localeCompareModel
      localeCompareModel_total localeCompareModel_trans
      [⟨"doc_001", "b.pdf", "ML", "2024-01-15T10:30:00Z", 3/4, 45⟩,
       ⟨"doc_002", "a.pdf", "DL", "2024-01-10", 17/20, 38⟩]⟩

/-- C4: when the file is missing or the subject is empty after trimming,
the upload handler surfaces the validation error toast and issues no
network request. -/
theorem upload_validation_no_request (st : UploadState)
    (o : Except Unit UploadResponse)
    (h : st.file = none ∨ jsTrim st.subject = "") :
    (handleUpload st o).requests = st.requests ∧
      (handleUpload st o).toasts =
        st.toasts ++ [Toast.error "Please select a file and enter a subject."] := by
  rcases h with h | h
  · simp [handleUpload, h]
  · cases hf : st.file with
    | none => simp [handleUpload, hf]
    | some f =>
      have hs : (jsTrim st.subject == "") = true := by simp [h]
      simp [handleUpload, hf, hs]

/-- State used to instantiate the upload validation theorem. -/
def uploadStateW : UploadState :=
  { file := none, subject := "Math", uploading := false, uploadResult := none,
    toasts := [], requests := [] }

/-- Witness for the upload validation theorem at a concrete state with no
file selected. -/
theorem upload_validation_no_request_witness :
    (uploadStateW.file = none ∨ jsTrim uploadStateW.subject = "") ∧
    ((handleUpload uploadStateW (Except.error ())).requests =
        uploadStateW.requests ∧
      (handleUpload uploadStateW (Except.error ())).toasts =
        uploadStateW.toasts ++
          [Toast.error "Please select a file and enter a subject."]) :=
  ⟨Or.inl rfl,
    upload_validation_no_request uploadStateW (Except.error ()) (Or.inl rfl)⟩

/-- C6: the askQuestion gateway operation builds the one POST `/ask`
request whose body fields equal the given question, document id and user
id, and an invocation without a document id uses the sentinel "all". -/
theorem askQuestion_request_shape (q d u : String) :
    (askQuestion q d u).path = "/ask" ∧
    (askQuestion q d u).question = q ∧
    (askQuestion q d u).document_id = d ∧
    (askQuestion q d u).user_id = u ∧
    askQuestionDefaultDoc q u = askQuestion q "all" u :=
  ⟨rfl, rfl, rfl, rfl, rfl⟩

/-- State used in the empty-question analysis of the ask page. -/
def askStateBlank : AskState :=
  { messages := [], input := "   ", loading := false,
    selectedDocument := "all", toasts := [], requests := [] }

/-- C5 counterexample: on a whitespace-only question, `handleSubmit`
returns the state unchanged — no request is issued, but also no toast is
surfaced, refuting that a ValidationError notice is shown to the user. -/
theorem ask_empty_input_counterexample :
    handleSubmit askStateBlank 0 (Except.error ()) = askStateBlank ∧
    (handleSubmit askStateBlank 0 (Except.error ())).toasts = [] ∧
    askStateBlank.toasts = [] := by
  refine ⟨?_, ?_, rfl⟩ <;> decide

/-- C5 amended: a submission whose question text is empty or
whitespace-only is never sent to the network and is silently ignored —
the whole view state, toasts included, is left unchanged. -/
theorem ask_empty_input_ignored (st : AskState) (now : Nat)
    (o : Except Unit AskResponse) (h : jsTrim st.input = "") :
    handleSubmit st now o = st := by
  have hc : (jsTrim st.input == "" || st.loading) = true := by simp [h]
  unfold handleSubmit
  rw [if_pos hc]

/-- State with a single-space question, used to instantiate the amended
empty-question theorem. -/
def askStateSpace : AskState :=
  { messages := [], input := " ", loading := false, selectedDocument := "all",
    toasts := [], requests := [] }

/-- Witness for the amended empty-question theorem at a concrete
whitespace-only input. -/
theorem ask_empty_input_ignored_witness :
    jsTrim askStateSpace.input = "" ∧
    handleSubmit askStateSpace 5 (Except.ok ⟨"a", none, none, none⟩) =
      askStateSpace :=
  ⟨by decide,
    ask_empty_input_ignored askStateSpace 5 (Except.ok ⟨"a", none, none, none⟩)
      (by decide)⟩

/-- State used in the error-path control analysis of the ask page. -/
def askStateHi : AskState :=
  { messages := [], input := "hi", loading := false, selectedDocument := "all",
    toasts := [], requests := [] }

/-- C7 counterexample: before the call the ask page's submit button is
enabled; after one failed call the loading flag is back to false but the
submission cleared the input text, so the button is disabled — the
enabled/disabled control state is not identical to the pre-call state. -/
theorem error_path_control_counterexample :
    askSubmitDisabled askStateHi = false ∧
    (handleSubmit askStateHi 0 (Except.error ())).loading = false ∧
    askSubmitDisabled (handleSubmit askStateHi 0 (Except.error ())) = true := by
  refine ⟨?_, ?_, ?_⟩ <;> decide

lemma handleSubmit_error_loading (st : AskState) (n : Nat) :
    (handleSubmit st n (Except.error ())).loading = st.loading := by
  unfold handleSubmit
  by_cases h : (jsTrim st.input == "" || st.loading) = true
  · rw [if_pos h]
  · rw [if_neg h]
    simp only [Bool.or_eq_true, beq_iff_eq] at h
    push_neg at h
    simp [Bool.not_eq_true] at h
    simp [h.2]

lemma handleUpload_error_preserves (u : UploadState) (hu : u.uploading = false) :
    (handleUpload u (Except.error ())).file = u.file ∧
    (handleUpload u (Except.error ())).subject = u.subject ∧
    (handleUpload u (Except.error ())).uploading = false := by
  cases hf : u.file with
  | none => simp [handleUpload, hf, hu]
  | some f =>
    by_cases hs : (jsTrim u.subject == "") = true
    · simp [handleUpload, hf, hs, hu]
    · simp [handleUpload, hf, hs]

/-- C7 amended: after one or two failed gateway calls the view's loading
flag equals its pre-call value, so no control stays disabled through the
loading flag; for the upload page (whose button also checks file and
subject presence, which the error path leaves untouched) the whole
disabled state is identical whenever no upload was in flight before the
call; the ask page's submit button may still end up disabled, but only
because submission cleared the input text, not because of the failure. -/
theorem error_path_loading_restored (st : AskState) (n m : Nat)
    (u : UploadState) (hu : u.uploading = false) :
    (handleSubmit st n (Except.error ())).loading = st.loading ∧
    (handleSubmit (handleSubmit st n (Except.error ())) m
        (Except.error ())).loading = st.loading ∧
    askInputDisabled (handleSubmit st n (Except.error ())) =
      askInputDisabled st ∧
    (handleUpload u (Except.error ())).uploading = false ∧
    uploadButtonDisabled (handleUpload u (Except.error ())) =
      uploadButtonDisabled u ∧
    uploadButtonDisabled
        (handleUpload (handleUpload u (Except.error ())) (Except.error ())) =
      uploadButtonDisabled u := by
  obtain ⟨hf1, hs1, hl1⟩ := handleUpload_error_preserves u hu
  obtain ⟨hf2, hs2, hl2⟩ :=
    handleUpload_error_preserves (handleUpload u (Except.error ())) hl1
  refine ⟨handleSubmit_error_loading st n, ?_, ?_, hl1, ?_, ?_⟩
  · rw [handleSubmit_error_loading, handleSubmit_error_loading]
  · unfold askInputDisabled
    rw [handleSubmit_error_loading]
  · unfold uploadButtonDisabled
    rw [hf1, hs1, hl1, hu]
  · unfold uploadButtonDisabled
    rw [hf2, hs2, hl2, hf1, hs1, hu]

/-- State used to instantiate the error-path theorem (upload side). -/
def uploadStateHi : UploadState :=
  { file := some ⟨"a.pdf"⟩, subject := "Math", uploading := false,
    uploadResult := none, toasts := [], requests := [] }

/-- Witness for the error-path theorem at concrete ask and upload
states. -/
theorem error_path_loading_restored_witness :
    uploadStateHi.uploading = false ∧
    ((handleSubmit askStateHi 1 (Except.error ())).loading =
        askStateHi.loading ∧
      (handleSubmit (handleSubmit askStateHi 1 (Except.error ())) 2
          (Except.error ())).loading = askStateHi.loading ∧
      askInputDisabled (handleSubmit askStateHi 1 (Except.error ())) =
        askInputDisabled askStateHi ∧
      (handleUpload uploadStateHi (Except.error ())).uploading = false ∧
      uploadButtonDisabled (handleUpload uploadStateHi (Except.error ())) =
        uploadButtonDisabled uploadStateHi ∧
      uploadButtonDisabled
          (handleUpload (handleUpload uploadStateHi (Except.error ()))
            (Except.error ())) =
        uploadButtonDisabled uploadStateHi) :=
  ⟨rfl, error_path_loading_restored askStateHi 1 2 uploadStateHi rfl⟩

/-- C8: on a successful askQuestion response (with the submission guard
passing), the transcript gains exactly the user message and an assistant
message whose content, sources list (same value, hence same length,
order and fields, with no re-sorting or re-normalisation), tutor
explanation and interaction id are taken verbatim from the response. -/
theorem ask_success_sources_verbatim (st : AskState) (now : Nat)
    (data : AskResponse) (hin : jsTrim st.input ≠ "")
    (hld : st.loading = false) :
    (handleSubmit st now (Except.ok data)).messages =
      st.messages ++
        [{ id := toString now, kind := "user", content := st.input,
           timestamp := now, sources := none, tutor_explanation := none,
           interaction_id := none },
         { id := toString (now + 1), kind := "assistant",
           content := data.answer, timestamp := now, sources := data.sources,
           tutor_explanation := data.tutor_explanation,
           interaction_id := data.interaction_id }] := by
  have hc : ¬((jsTrim st.input == "" || st.loading) = true) := by
    simp [hin, hld]
  unfold handleSubmit
  rw [if_neg hc]
  simp

/-- State used to instantiate the verbatim-sources theorem. -/
def askStateQ : AskState :=
  { messages := [], input := "What is X?", loading := false,
    selectedDocument := "all", toasts := [], requests := [] }

/-- Response with one source, used to instantiate the verbatim-sources
theorem. -/
def askResponseQ : AskResponse :=
  { answer := "X is...",
    sources := some [{ document := "a.pdf", chunk_id := "c1",
                       relevance_score := 9/10, preview := "..." }],
    tutor_explanation := none, interaction_id := some "i1" }

/-- Witness for the verbatim-sources theorem at a concrete state and a
stub response holding one source. -/
theorem ask_success_sources_verbatim_witness :
    jsTrim askStateQ.input ≠ "" ∧ askStateQ.loading = false ∧
    (handleSubmit askStateQ 3 (Except.ok askResponseQ)).messages =
      askStateQ.messages ++
        [{ id := toString 3, kind := "user", content := askStateQ.input,
           timestamp := 3, sources := none, tutor_explanation := none,
           interaction_id := none },
         { id := toString (3 + 1), kind := "assistant",
           content := askResponseQ.answer, timestamp := 3,
           sources := askResponseQ.sources,
           tutor_explanation := askResponseQ.tutor_explanation,
           interaction_id := askResponseQ.interaction_id }] :=
  ⟨by decide, rfl,
    ask_success_sources_verbatim askStateQ 3 askResponseQ (by decide) rfl⟩

/-- C9: submitting feedback — success or failure — leaves the chat
transcript untouched: the messages list (with the already-shown answer
and its interaction id), the input and the loading flag are all
unchanged. -/
theorem feedback_preserves_transcript (st : AskState) (interactionId : String)
    (rating : Int) (o : Except Unit Unit) :
    (handleFeedback st interactionId rating o).messages = st.messages ∧
    (handleFeedback st interactionId rating o).input = st.input ∧
    (handleFeedback st interactionId rating o).loading = st.loading ∧
    (handleFeedback st interactionId rating o).selectedDocument =
      st.selectedDocument := by
  cases o <;> simp [handleFeedback]

lemma handleSearch_history_eq (st : ResearchState) (o : Except Unit String) :
    (handleSearch st o).searchHistory =
      if jsTrim st.topic == "" then st.searchHistory
      else
        match o with
        | Except.ok _ =>
            if st.searchHistory.contains st.topic then st.searchHistory
            else st.topic :: st.searchHistory.take 9
        | Except.error _ => st.searchHistory := by
  unfold handleSearch
  by_cases hg : (jsTrim st.topic == "") = true
  · rw [if_pos hg, if_pos hg]
  · rw [if_neg hg, if_neg hg]
    cases o with
    | ok s =>
      by_cases hc : st.topic ∈ st.searchHistory
      · simp [hc]
      · simp [hc]
    | error e => simp

lemma handleSearch_preserves_invariant (st : ResearchState)
    (o : Except Unit String)
    (h : st.searchHistory.length ≤ 10 ∧ st.searchHistory.Nodup) :
    (handleSearch st o).searchHistory.length ≤ 10 ∧
      (handleSearch st o).searchHistory.Nodup := by
  rw [handleSearch_history_eq]
  by_cases hg : (jsTrim st.topic == "") = true
  · rw [if_pos hg]; exact h
  · rw [if_neg hg]
    cases o with
    | error e => exact h
    | ok s =>
      by_cases hc : st.searchHistory.contains st.topic = true
      · rw [if_pos hc]; exact h
      · rw [if_neg hc]
        have hmem : st.topic ∉ st.searchHistory := by
          simp at hc
          exact hc
        constructor
        · have hlen : (st.searchHistory.take 9).length ≤ 9 := by
            rw [List.length_take]
            exact min_le_left _ _
          simp

        · refine List.Nodup.cons ?_ ?_
          · intro hmem9
            exact hmem (List.take_subset _ _ hmem9)
          · exact List.Nodup.sublist (List.take_sublist _ _) h.2

lemma runSearches_aux (steps : List (String × Except Unit String))
    (st : ResearchState)
    (h : st.searchHistory.length ≤ 10 ∧ st.searchHistory.Nodup) :
    (steps.foldl (fun s p => handleSearch { s with topic := p.1 } p.2)
        st).searchHistory.length ≤ 10 ∧
      (steps.foldl (fun s p => handleSearch { s with topic := p.1 } p.2)
        st).searchHistory.Nodup := by
  induction steps generalizing st with
  | nil => exact h
  | cons p ps ih =>
    exact ih _ (handleSearch_preserves_invariant { st with topic := p.1 } p.2 h)

/-- C10: after any sequence of research searches the history holds at
most ten entries with no duplicate topics; a successfully searched topic
not already present is prepended as the newest entry (in front of the
first nine previous entries), and a topic already present leaves the
history unchanged. -/
theorem research_history_invariant :
    (∀ steps, (runSearches steps).searchHistory.length ≤ 10 ∧
      (runSearches steps).searchHistory.Nodup) ∧
    (∀ (st : ResearchState) (sugg : String), jsTrim st.topic ≠ "" →
      st.searchHistory.contains st.topic = false →
      (handleSearch st (Except.ok sugg)).searchHistory =
        st.topic :: st.searchHistory.take 9) ∧
    (∀ (st : ResearchState) (sugg : String),
      st.searchHistory.contains st.topic = true →
      (handleSearch st (Except.ok sugg)).searchHistory = st.searchHistory) := by
  refine ⟨fun steps => runSearches_aux steps initialResearchState
    (by constructor <;> simp [initialResearchState]), ?_, ?_⟩
  · intro st sugg ht hc
    have hmem : st.topic ∉ st.searchHistory := by
      simp at hc
      exact hc
    rw [handleSearch_history_eq]
    have hg : ¬((jsTrim st.topic == "") = true) := by simpa using ht
    rw [if_neg hg]
    simp [hmem]
  · intro st sugg hc
    have hmem : st.topic ∈ st.searchHistory := by
      simp at hc
      exact hc
    rw [handleSearch_history_eq]
    by_cases hg : (jsTrim st.topic == "") = true
    · rw [if_pos hg]
    · rw [if_neg hg]
      simp [hmem]

/-- State used to instantiate the research history theorem. -/
def researchStateW : ResearchState :=
  { topic := "machine learning", suggestions := "", loading := false,
    searchHistory := ["ai"], toasts := [], requests := [] }

/-- Witness for the research history theorem: a fresh topic searched
against a one-entry history is prepended as the newest entry. -/
theorem research_history_invariant_witness :
    jsTrim researchStateW.topic ≠ "" ∧
    researchStateW.searchHistory.contains researchStateW.topic = false ∧
    (handleSearch researchStateW (Except.ok "try arXiv")).searchHistory =
      researchStateW.topic :: researchStateW.searchHistory.take 9 :=
  ⟨by decide, by decide,
    research_history_invariant.2.1 researchStateW "try arXiv" (by decide)
      (by decide)⟩
